import Mathlib

/-!
Shallow embedding of `samcli/local/docker/manager.py` (class `ContainerManager`
and exception `DockerImagePullFailedException`).

Modelling choices:
* Python strings are Lean `String`s; where the source manipulates them
  character by character (the `re.search` pattern, `str.startswith`) we work on
  `String.data : List Char`.
* Byte counts from `progressDetail` are `Nat` (they are non-negative byte
  counts in the docker pull stream).  Python computes
  `int((current_sum / current_total) * 100)` with float division and
  truncation towards zero; for the non-negative inputs considered here this is
  the floor `current_sum * 100 / current_total`, which is how we embed it.
  Python raises `ZeroDivisionError` when `current_total == 0`, so the
  embedding branches on that explicitly (Lean's `Nat` division would silently
  return 0).
* Python dicts are association lists (insertion order preserved; only lookup,
  insert/overwrite and iteration for sums are used).  A missing key raises
  `KeyError`, embedded as an explicit error.
* External effects (the docker client, container create/start, the stream
  writer) are embedded as oracle parameters and as an explicit trace of the
  calls made.
-/

namespace SamCli

/-! ### Pull-event lines

Each element of the docker pull stream is a dict with `status`, `id` and, for
"Downloading" lines, `progressDetail.current` / `progressDetail.total`. -/

structure PullLine where
  status : String
  id : String
  progressCurrent : Nat
  progressTotal : Nat
deriving DecidableEq

/-- A "Pulling fs layer" line (its `progressDetail` is never read). -/
def PullingFsLayer (id : String) : PullLine :=
  ⟨"Pulling fs layer", id, 0, 0⟩

/-- A "Downloading" line carrying `progressDetail` byte counts. -/
def Downloading (id : String) (current total : Nat) : PullLine :=
  ⟨"Downloading", id, current, total⟩

/-- Exceptions the progress-display loop can raise, as Python would. -/
inductive AggExn where
  | keyError (id : String)
  | zeroDivisionError
deriving DecidableEq

/-- One write to the stream inside `_display_image_download_progress`:
either an updating progress line or the final completion line. -/
inductive ProgressWrite where
  | progress (currentSum currentTotal percentage : Nat)
  | done
deriving DecidableEq

/-- The text actually written for each `ProgressWrite`
(`"\rDownloading: {} / {} Bytes ({}%)"` resp. the padded completion line). -/
def renderWrite : ProgressWrite → String
  | .progress s t p =>
      "\rDownloading: " ++ toString s ++ " / " ++ toString t ++ " Bytes ("
        ++ toString p ++ "%)"
  | .done => "\rDownloading: done                                          \n"

/-- The `layers` dict: layer id ↦ (current, total). -/
abbrev Layers := List (String × Nat × Nat)

/-- Python `layers.get(id)` style lookup (`id in layers` / `layers[id]`). -/
def layersGet : Layers → String → Option (Nat × Nat)
  | [], _ => none
  | (k, v) :: rest, i => if k = i then some v else layersGet rest i

/-- Python `layers[id] = v`: overwrite if present, else append (dicts keep
insertion order). -/
def layersSet : Layers → String → Nat × Nat → Layers
  | [], i, v => [(i, v)]
  | (k, w) :: rest, i, v =>
      if k = i then (i, v) :: rest else (k, w) :: layersSet rest i v

/-- Sum of the `current` fields over all tracked layers. -/
def layersCurrentSum (layers : Layers) : Nat :=
  (layers.map fun e => e.2.1).sum

/-- Sum of the `total` fields over all tracked layers. -/
def layersTotalSum (layers : Layers) : Nat :=
  (layers.map fun e => e.2.2).sum

/-- The body of the `for line in result_itr` loop of
`_display_image_download_progress`, for one line: returns the updated
`layers` dict and the progress line written (if any), or the exception
Python would raise (`KeyError` on an untracked id, `ZeroDivisionError`
when the total sum is 0). -/
def processLine (layers : Layers) (line : PullLine) :
    Except AggExn (Layers × Option ProgressWrite) :=
  if line.status = "Pulling fs layer" then
    .ok (layersSet layers line.id (0, 0), none)
  else if line.status ≠ "Downloading" then
    .ok (layers, none)
  else
    match layersGet layers line.id with
    | none => .error (.keyError line.id)
    | some _ =>
        let layers' := layersSet layers line.id
          (line.progressCurrent, line.progressTotal)
        let current_sum := layersCurrentSum layers'
        let current_total := layersTotalSum layers'
        if current_total = 0 then
          .error .zeroDivisionError
        else
          .ok (layers', some (.progress current_sum current_total
            (current_sum * 100 / current_total)))

/-- The whole `for` loop: final `layers` dict and the list of progress lines
written, or the first exception raised. -/
def displayLoop (layers : Layers) :
    List PullLine → Except AggExn (Layers × List ProgressWrite)
  | [] => .ok (layers, [])
  | line :: rest =>
      match processLine layers line with
      | .error e => .error e
      | .ok (layers', w) =>
          match displayLoop layers' rest with
          | .error e => .error e
          | .ok (layersF, ws) => .ok (layersF, w.toList ++ ws)

/-- The full `_display_image_download_progress`: run the loop starting from an empty
`layers` dict, then write the final completion line. -/
def display_image_download_progress (lines : List PullLine) :
    Except AggExn (List ProgressWrite) :=
  match displayLoop [] lines with
  | .error e => .error e
  | .ok (_, ws) => .ok (ws ++ [.done])

/-- The percentages among the emitted progress lines, in order. -/
def emittedPercentages (ws : List ProgressWrite) : List Nat :=
  ws.filterMap fun w =>
    match w with
    | .progress _ _ p => some p
    | .done => none

/-! ### The rapid-tag test

`_is_rapid_image` is `re.search(r":rapid-\d+\.\d+.\d+$", image_name)`.
Note the second separator in the pattern is an unescaped `.` (any character
except a newline), and `$` matches at the end of the string or just before a
trailing newline.  We embed the regex as a backtracking matcher over
`List Char`.

The class `\d` on a `str` pattern matches any Unicode decimal digit
(category Nd); that table is owned by the external `re` module, so — like the
docker client — it is an oracle parameter `isDig : Char → Bool` of the
matcher.  On ASCII characters `\d` is exactly `Char.isDigit` (the only ASCII
characters in Nd are `0`-`9`), so `Char.isDigit` is a faithful instance for
all-ASCII inputs. -/

/-- The literal `":rapid-"` of the pattern. -/
def rapidLit : List Char := [':', 'r', 'a', 'p', 'i', 'd', '-']

/-- Consume a literal character sequence from the front of a list. -/
def consumeLit : List Char → List Char → Option (List Char)
  | [], l => some l
  | _ :: _, [] => none
  | p :: ps, c :: cs => if c = p then consumeLit ps cs else none

/-- Pattern piece `\d+` followed by whatever `k` accepts (one or more digits
of the class `isDig`, with backtracking over how many digits are consumed). -/
def digitsThen (isDig : Char → Bool) (k : List Char → Bool) :
    List Char → Bool
  | [] => false
  | c :: rest => isDig c && (k rest || digitsThen isDig k rest)

/-- Anchor `$`: end of string, or just before a newline at the end of the string. -/
def dollarEnd : List Char → Bool
  | [] => true
  | [c] => c == '\n'
  | _ :: _ :: _ => false

/-- Pattern tail `\d+$`. -/
def lastNum (isDig : Char → Bool) : List Char → Bool :=
  digitsThen isDig dollarEnd

/-- Pattern tail `.\d+$` — the unescaped `.` matches any character except a newline. -/
def sepLastNum (isDig : Char → Bool) : List Char → Bool
  | [] => false
  | c :: rest => !(c == '\n') && lastNum isDig rest

/-- Pattern tail `\d+.\d+$`. -/
def midNum (isDig : Char → Bool) : List Char → Bool :=
  digitsThen isDig (sepLastNum isDig)

/-- Pattern tail `\.\d+.\d+$`. -/
def dotMidNum (isDig : Char → Bool) : List Char → Bool
  | [] => false
  | c :: rest => (c == '.') && midNum isDig rest

/-- Pattern tail `\d+\.\d+.\d+$`. -/
def firstNum (isDig : Char → Bool) : List Char → Bool :=
  digitsThen isDig (dotMidNum isDig)

/-- Embedding of `re.search` for `":rapid-"` followed by `k`: try every start position. -/
def searchTail (k : List Char → Bool) : List Char → Bool
  | [] => false
  | c :: rest =>
      (match consumeLit rapidLit (c :: rest) with
       | some r => k r
       | none => false) || searchTail k rest

/-- Embedding of `ContainerManager._is_rapid_image`, parameterized by the
`\d` class `isDig` of the `re` module (Unicode decimal digits; `Char.isDigit`
on ASCII inputs). -/
def is_rapid_image (isDig : Char → Bool) (image_name : String) : Bool :=
  searchTail (firstNum isDig) image_name.data

/-! The shape the claim describes: the name ends with `:rapid-` followed by
three dot-separated integer groups (both separators literal dots, match ending
exactly at the end of the string). -/

/-- End of string, strictly. -/
def strictEnd : List Char → Bool
  | [] => true
  | _ :: _ => false

/-- Claim shape: `\d+` then end of string. -/
def cLastNum (isDig : Char → Bool) : List Char → Bool :=
  digitsThen isDig strictEnd

/-- Claim shape: a literal `.` then `\d+` then end of string. -/
def cDotLast (isDig : Char → Bool) : List Char → Bool
  | [] => false
  | c :: rest => (c == '.') && cLastNum isDig rest

/-- Claim shape: `\d+\.\d+` then end of string. -/
def cMidNum (isDig : Char → Bool) : List Char → Bool :=
  digitsThen isDig (cDotLast isDig)

/-- Claim shape: `\.\d+\.\d+` then end of string. -/
def cDotMid (isDig : Char → Bool) : List Char → Bool
  | [] => false
  | c :: rest => (c == '.') && cMidNum isDig rest

/-- Claim shape: `\d+\.\d+\.\d+` then end of string. -/
def cFirstNum (isDig : Char → Bool) : List Char → Bool :=
  digitsThen isDig (cDotMid isDig)

/-- The claim's "rapid" shape: the name ends with `:rapid-` followed by three
dot-separated integer groups (digits drawn from `isDig`). -/
def claimRapidShape (isDig : Char → Bool) (s : String) : Bool :=
  searchTail (cFirstNum isDig) s.data

/-! ### `has_image` and `run`

The docker client is an oracle: `images.get(name)` either succeeds, raises
`docker.errors.ImageNotFound`, or raises some other exception (carrying its
message).  `pull_image` either succeeds or raises
`DockerImagePullFailedException` (the `docker.errors.APIError` path); this is
an oracle parameter `pullResult` of `run` (`none` = success, `some msg` = the
exception's message).  Container create/start and the network id assignment
are opaque side effects recorded in a trace. -/

/-- Outcome of `docker_client.images.get(image_name)`. -/
inductive ImagesGetOutcome where
  | found
  | imageNotFound
  | apiError (msg : String)
deriving DecidableEq

/-- Exceptions escaping `ContainerManager.run` / `ContainerManager.has_image`. -/
inductive PyExn where
  | valueError (msg : String)
  | dockerImagePullFailed (msg : String)
  | apiError (msg : String)
deriving DecidableEq

/-- Embedding of `ContainerManager.has_image`: `True` on success, `False` when
`docker.errors.ImageNotFound` is caught; any other exception propagates. -/
def has_image (images_get : String → ImagesGetOutcome) (image_name : String) :
    Except PyExn Bool :=
  match images_get image_name with
  | .found => .ok true
  | .imageNotFound => .ok false
  | .apiError msg => .error (.apiError msg)

/-- Embedding of `image_name.startswith("samcli/lambda")`. -/
def startsWithSamcliLambda (image_name : String) : Bool :=
  (consumeLit "samcli/lambda".data image_name.data).isSome

/-- What a call to `ContainerManager.run` did: its result (or the exception it
raised), whether `pull_image` was called, whether `container.create()` was
called, whether `container.start(...)` was called. -/
structure RunOutcome where
  result : Except PyExn Unit
  pullAttempted : Bool
  createCalled : Bool
  startCalled : Bool

/-- Embedding of `ContainerManager.run(container, input_data, warm)`.

`skip_pull_image` is the manager's flag, `isDig` the `re` module's `\d` class
(used by `_is_rapid_image`), `images_get` the docker client's
image-metadata oracle, `pullResult` the outcome `pull_image` would have
(`none` = success, `some msg` = `DockerImagePullFailedException msg`),
`image_name` is `container.image`, `is_created` is `container.is_created()`. -/
def run (skip_pull_image : Bool) (isDig : Char → Bool)
    (images_get : String → ImagesGetOutcome)
    (pullResult : Option String) (image_name : String) (is_created : Bool)
    (warm : Bool) : RunOutcome :=
  if warm then
    { result := .error (.valueError
        "The facility to invoke warm container does not exist"),
      pullAttempted := false, createCalled := false, startCalled := false }
  else
    match has_image images_get image_name with
    | .error e =>
        { result := .error e, pullAttempted := false,
          createCalled := false, startCalled := false }
    | .ok is_image_local =>
        let pullPhase : Except PyExn Unit × Bool :=
          if is_image_local && skip_pull_image then
            (.ok (), false)
          else if startsWithSamcliLambda image_name
              || (is_image_local && is_rapid_image isDig image_name) then
            (.ok (), false)
          else
            match pullResult with
            | none => (.ok (), true)
            | some _ =>
                if !is_image_local then
                  (.error (.dockerImagePullFailed
                    ("Could not find " ++ image_name
                      ++ " image locally and failed to pull it from docker.")),
                   true)
                else
                  (.ok (), true)
        match pullPhase with
        | (.error e, pa) =>
            { result := .error e, pullAttempted := pa,
              createCalled := false, startCalled := false }
        | (.ok _, pa) =>
            { result := .ok (), pullAttempted := pa,
              createCalled := !is_created, startCalled := true }

/-! ### Lemmas about the progress loop -/

/-- Running the loop over `xs ++ ys` fails with `e` whenever it succeeds on
`xs` (reaching layer state `L`) and then fails with `e` on `ys` from `L`. -/
theorem displayLoop_append_error (layers : Layers) (xs ys : List PullLine)
    (L : Layers) (ws : List ProgressWrite) (e : AggExn)
    (h1 : displayLoop layers xs = .ok (L, ws))
    (h2 : displayLoop L ys = .error e) :
    displayLoop layers (xs ++ ys) = .error e := by
  induction xs generalizing layers ws with
  | nil =>
      simp only [displayLoop, Except.ok.injEq, Prod.mk.injEq] at h1
      rw [List.nil_append, h1.1, h2]
  | cons line rest ih =>
      rw [List.cons_append, displayLoop]
      rw [displayLoop] at h1
      cases hp : processLine layers line with
      | error f => rw [hp] at h1; simp at h1
      | ok out =>
          obtain ⟨layers', w⟩ := out
          rw [hp] at h1
          dsimp only at h1 ⊢
          cases hr : displayLoop layers' rest with
          | error f => rw [hr] at h1; simp at h1
          | ok out' =>
              obtain ⟨LF, ws2⟩ := out'
              rw [hr] at h1
              dsimp only at h1
              simp only [Except.ok.injEq, Prod.mk.injEq] at h1
              rw [ih layers' ws2 (by rw [hr, h1.1])]

/-- The synthetic event stream of the claim. -/
def demoStream : List PullLine :=
  [PullingFsLayer "A", PullingFsLayer "B", Downloading "A" 50 100,
   Downloading "B" 30 100, Downloading "A" 100 100, Downloading "B" 100 100]

/-! ### Characterization of the rapid-tag matcher -/

/-- The function `consumeLit` succeeds exactly on lists starting with the literal. -/
theorem consumeLit_eq_some :
    ∀ lit l r : List Char, consumeLit lit l = some r ↔ l = lit ++ r := by
  intro lit
  induction lit with
  | nil => intro l r; simp [consumeLit]
  | cons p ps ih =>
      intro l r
      cases l with
      | nil => simp [consumeLit]
      | cons c cs =>
          rw [consumeLit]
          by_cases hc : c = p
          · subst hc
            simp [ih]
          · simp [hc]

/-- The function `consumeLit` removes the literal it is given. -/
theorem consumeLit_self (lit r : List Char) :
    consumeLit lit (lit ++ r) = some r :=
  (consumeLit_eq_some lit (lit ++ r) r).mpr rfl

/-- Soundness half of `\d+` followed by `k`. -/
theorem digitsThen_to (isDig : Char → Bool) (k : List Char → Bool) :
    ∀ l, digitsThen isDig k l = true →
      ∃ d r, l = d ++ r ∧ d ≠ [] ∧ (∀ c ∈ d, isDig c = true) ∧ k r = true := by
  intro l h
  induction l with
  | nil => simp [digitsThen] at h
  | cons c rest ih =>
      rw [digitsThen, Bool.and_eq_true, Bool.or_eq_true] at h
      obtain ⟨hc, h2⟩ := h
      rcases h2 with hk | hrec
      · exact ⟨[c], rest, rfl, by simp, by simp [hc], hk⟩
      · obtain ⟨d, r, rfl, hne, hdig, hk⟩ := ih hrec
        refine ⟨c :: d, r, rfl, by simp, ?_, hk⟩
        intro a ha
        rcases List.mem_cons.mp ha with rfl | ha
        · exact hc
        · exact hdig a ha

/-- Completeness half of `\d+` followed by `k`. -/
theorem digitsThen_of (isDig : Char → Bool) (k : List Char → Bool)
    (d r : List Char)
    (hd : d ≠ []) (hdig : ∀ c ∈ d, isDig c = true) (hk : k r = true) :
    digitsThen isDig k (d ++ r) = true := by
  induction d with
  | nil => exact absurd rfl hd
  | cons c d ih =>
      rw [List.cons_append, digitsThen]
      have hc : isDig c = true := hdig c (by simp)
      cases d with
      | nil => simp [hc, hk]
      | cons c' d' =>
          have hrec := ih (by simp)
            (fun a ha => hdig a (List.mem_cons_of_mem c ha))
          simp [hc]
          exact Or.inr hrec

/-- Acceptance of `digitsThen isDig k`: exactly a non-empty block of
`isDig`-digits followed by a list `k` accepts. -/
theorem digitsThen_iff (isDig : Char → Bool) (k : List Char → Bool)
    (l : List Char) :
    digitsThen isDig k l = true ↔
      ∃ d r, l = d ++ r ∧ d ≠ [] ∧ (∀ c ∈ d, isDig c = true) ∧ k r = true := by
  constructor
  · exact digitsThen_to isDig k l
  · rintro ⟨d, r, rfl, hne, hdig, hk⟩
    exact digitsThen_of isDig k d r hne hdig hk

/-- Anchor `$` accepts the empty tail or a single trailing newline. -/
theorem dollarEnd_iff (t : List Char) :
    dollarEnd t = true ↔ t = [] ∨ t = ['\n'] := by
  rcases t with _ | ⟨c, _ | ⟨d, t'⟩⟩ <;> simp [dollarEnd]

/-- The unescaped `.` step: any non-newline character, then `\d+$`. -/
theorem sepLastNum_iff (isDig : Char → Bool) (l : List Char) :
    sepLastNum isDig l = true ↔
      ∃ x r, l = x :: r ∧ x ≠ '\n' ∧ lastNum isDig r = true := by
  rcases l with _ | ⟨c, rest⟩
  · simp [sepLastNum]
  · simp only [sepLastNum, Bool.and_eq_true, Bool.not_eq_true', beq_eq_false_iff_ne,
      List.cons.injEq, ne_eq]
    constructor
    · intro h; exact ⟨c, rest, ⟨rfl, rfl⟩, h⟩
    · rintro ⟨x, r, ⟨rfl, rfl⟩, h⟩; exact h

/-- The escaped `\.` step: a literal dot, then `\d+.\d+$`. -/
theorem dotMidNum_iff (isDig : Char → Bool) (l : List Char) :
    dotMidNum isDig l = true ↔ ∃ r, l = '.' :: r ∧ midNum isDig r = true := by
  rcases l with _ | ⟨c, rest⟩
  · simp [dotMidNum]
  · simp only [dotMidNum, Bool.and_eq_true, beq_iff_eq, List.cons.injEq]
    constructor
    · rintro ⟨rfl, h⟩; exact ⟨rest, ⟨rfl, rfl⟩, h⟩
    · rintro ⟨r, ⟨rfl, rfl⟩, h⟩; exact ⟨rfl, h⟩

/-- Completeness half of the search: the pattern anywhere suffices. -/
theorem searchTail_of (k : List Char → Bool) (p r : List Char)
    (hk : k r = true) :
    searchTail k (p ++ (rapidLit ++ r)) = true := by
  induction p with
  | nil =>
      rw [List.nil_append]
      rw [show (rapidLit ++ r : List Char)
            = ':' :: (['r', 'a', 'p', 'i', 'd', '-'] ++ r) from rfl]
      rw [searchTail]
      rw [show consumeLit rapidLit (':' :: (['r', 'a', 'p', 'i', 'd', '-'] ++ r))
            = some r from consumeLit_self rapidLit r]
      simp [hk]
  | cons c p' ih =>
      rw [List.cons_append, searchTail]
      simp [ih]

/-- Soundness half of the search: acceptance yields a match position. -/
theorem searchTail_to (k : List Char → Bool) :
    ∀ l, searchTail k l = true →
      ∃ p r, l = p ++ (rapidLit ++ r) ∧ k r = true := by
  intro l h
  induction l with
  | nil => simp [searchTail] at h
  | cons c rest ih =>
      rw [searchTail, Bool.or_eq_true] at h
      rcases h with hhead | hrec
      · cases hc : consumeLit rapidLit (c :: rest) with
        | none => rw [hc] at hhead; simp at hhead
        | some r =>
            rw [hc] at hhead
            exact ⟨[], r, by
              rw [List.nil_append]
              exact (consumeLit_eq_some rapidLit (c :: rest) r).mp hc, hhead⟩
      · obtain ⟨p, r, hEq, hk⟩ := ih hrec
        exact ⟨c :: p, r, by rw [List.cons_append, hEq], hk⟩

/-- What the source regex accepts: somewhere in the name, `:rapid-`, then one
or more digits of the class `isDig`, a literal dot, one or more digits, any
single non-newline character, one or more digits, ending at the end of the
name or just before one final newline. -/
def RapidNameShape (isDig : Char → Bool) (s : String) : Prop :=
  ∃ p d1 d2 x d3 t,
    s.data = p ++ (rapidLit ++ (d1 ++ ('.' :: (d2 ++ (x :: (d3 ++ t)))))) ∧
    d1 ≠ [] ∧ (∀ c ∈ d1, isDig c = true) ∧
    d2 ≠ [] ∧ (∀ c ∈ d2, isDig c = true) ∧
    x ≠ '\n' ∧
    d3 ≠ [] ∧ (∀ c ∈ d3, isDig c = true) ∧
    (t = [] ∨ t = ['\n'])

end SamCli

/-- C1 (counterexample): on the synthetic stream
`[PullingFsLayer A, PullingFsLayer B, Downloading(A,50,100),
Downloading(B,30,100), Downloading(A,100,100), Downloading(B,100,100)]` the
aggregation emits the percentages 50, 40, 65, 100 — not 40, 82, 100 as the
claim states (the code emits a line for the first Downloading event as well,
while layer B still reports total 0, and the running sums give floors 50, 40,
65, 100). -/
theorem c1_counterexample :
    (SamCli.display_image_download_progress SamCli.demoStream).map
        SamCli.emittedPercentages = .ok [50, 40, 65, 100]
      ∧ [50, 40, 65, 100] ≠ [40, 82, 100] :=
  ⟨rfl, by decide⟩

/-- C1 (amended): on the synthetic stream the aggregation emits exactly the
progress lines `50/100 Bytes (50%)`, `80/200 Bytes (40%)`,
`130/200 Bytes (65%)`, `200/200 Bytes (100%)` — percentages 50, 40, 65, 100,
each the floor of the exact running sums — followed by the final completion
line after the stream ends. -/
theorem c1_amended_progress_lines :
    SamCli.display_image_download_progress SamCli.demoStream =
      .ok [.progress 50 100 50, .progress 80 200 40, .progress 130 200 65,
           .progress 200 200 100, .done] :=
  rfl

/-- C2: contrary to the claim, the aggregation does crash on a zero total
sum: on `[PullingFsLayer A, Downloading(A,0,0)]` every tracked layer has
total 0 when the Downloading line is processed, and
`int((current_sum / current_total) * 100)` raises `ZeroDivisionError`. -/
theorem c2_zero_total_zero_division_error :
    SamCli.display_image_download_progress
        [SamCli.PullingFsLayer "A", SamCli.Downloading "A" 0 0]
      = .error .zeroDivisionError :=
  rfl

/-- C10: a "Downloading" line whose layer id was never initialized by a prior
"Pulling fs layer" line makes the aggregation raise a `KeyError` for that id
instead of processing the event: if the loop runs the prefix `pre`
successfully reaching layer dict `L`, and `i` is not a key of `L`, the whole
stream fails with `KeyError i`. -/
theorem c10_uninitialized_layer_key_error
    (pre post : List SamCli.PullLine) (i : String) (cur tot : Nat)
    (L : SamCli.Layers) (ws : List SamCli.ProgressWrite)
    (h1 : SamCli.displayLoop [] pre = .ok (L, ws))
    (h2 : SamCli.layersGet L i = none) :
    SamCli.display_image_download_progress
        (pre ++ SamCli.Downloading i cur tot :: post) =
      .error (.keyError i) := by
  have hstep : SamCli.processLine L (SamCli.Downloading i cur tot)
      = .error (.keyError i) := by
    simp only [SamCli.processLine, SamCli.Downloading]
    rw [if_neg (by decide), if_neg (by decide), h2]
  have hloop : SamCli.displayLoop L (SamCli.Downloading i cur tot :: post)
      = .error (.keyError i) := by
    rw [SamCli.displayLoop, hstep]
  have hall := SamCli.displayLoop_append_error [] pre
    (SamCli.Downloading i cur tot :: post) L ws (.keyError i) h1 hloop
  rw [SamCli.display_image_download_progress, hall]

/-- C10 (witness): the stream `[PullingFsLayer A, Downloading(B,1,2)]`
raises `KeyError "B"`. -/
theorem c10_witness :
    SamCli.display_image_download_progress
        ([SamCli.PullingFsLayer "A"] ++ SamCli.Downloading "B" 1 2 :: []) =
      .error (.keyError "B") :=
  c10_uninitialized_layer_key_error [SamCli.PullingFsLayer "A"] [] "B" 1 2
    [("A", (0, 0))] [] (by rfl) (by rfl)

/-- C3 (counterexample): the rapid tagging test accepts
`"a:rapid-1.2x3"`, a name that does not end with three dot-separated integer
groups — the second separator of the source pattern is an unescaped `.`
(`r":rapid-\d+\.\d+.\d+$"`), matching any non-newline character.  The input
is all-ASCII, and on ASCII characters the `\d` class is exactly
`Char.isDigit` (the only ASCII characters of Unicode category Nd are
`0`-`9`), so `Char.isDigit` is a faithful digit oracle at this input. -/
theorem c3_counterexample :
    SamCli.is_rapid_image Char.isDigit "a:rapid-1.2x3" = true
      ∧ SamCli.claimRapidShape Char.isDigit "a:rapid-1.2x3" = false := by
  exact ⟨by decide, by decide⟩

/-- C3 (amended): for every digit class `isDig` (standing for the `re`
module's `\d`, Unicode decimal digits), the rapid tagging test holds for an
image name exactly when the name contains `:rapid-` followed by one or more
`isDig`-digits, a literal dot, one or more `isDig`-digits, any single
character other than a newline, and one or more `isDig`-digits, ending at the
end of the name or just before one final trailing newline; for every name not
of that shape the test returns false.  Proved uniformly in the digit class,
so it holds for the program whatever digit table `re` uses. -/
theorem c3_amended_rapid_characterization (isDig : Char → Bool) (s : String) :
    SamCli.is_rapid_image isDig s = true ↔ SamCli.RapidNameShape isDig s := by
  constructor
  · intro h
    obtain ⟨p, r, hs, hf⟩ :=
      SamCli.searchTail_to (SamCli.firstNum isDig) s.data h
    obtain ⟨d1, r1, rfl, hne1, hdig1, hf1⟩ :=
      SamCli.digitsThen_to isDig (SamCli.dotMidNum isDig) r hf
    obtain ⟨r2, rfl, hf2⟩ := (SamCli.dotMidNum_iff isDig r1).mp hf1
    obtain ⟨d2, r3, rfl, hne2, hdig2, hf3⟩ :=
      SamCli.digitsThen_to isDig (SamCli.sepLastNum isDig) r2 hf2
    obtain ⟨x, r4, rfl, hx, hf4⟩ := (SamCli.sepLastNum_iff isDig r3).mp hf3
    obtain ⟨d3, t, rfl, hne3, hdig3, ht⟩ :=
      SamCli.digitsThen_to isDig SamCli.dollarEnd r4 hf4
    exact ⟨p, d1, d2, x, d3, t, hs, hne1, hdig1, hne2, hdig2, hx, hne3,
      hdig3, (SamCli.dollarEnd_iff t).mp ht⟩
  · rintro ⟨p, d1, d2, x, d3, t, hs, hne1, hdig1, hne2, hdig2, hx, hne3,
      hdig3, ht⟩
    show SamCli.searchTail (SamCli.firstNum isDig) s.data = true
    rw [hs]
    apply SamCli.searchTail_of
    apply SamCli.digitsThen_of _ _ _ _ hne1 hdig1
    apply (SamCli.dotMidNum_iff _ _).mpr
    refine ⟨_, rfl, ?_⟩
    apply SamCli.digitsThen_of _ _ _ _ hne2 hdig2
    apply (SamCli.sepLastNum_iff _ _).mpr
    refine ⟨x, _, rfl, hx, ?_⟩
    apply SamCli.digitsThen_of _ _ _ _ hne3 hdig3
    exact (SamCli.dollarEnd_iff t).mpr ht

/-- C4: `run` with `warm = true` immediately raises
`ValueError("The facility to invoke warm container does not exist")` and has
no side effects: no pull is attempted and neither `container.create()` nor
`container.start(...)` is called — for every manager flag, digit class,
docker-client oracle, pull outcome, image name and container state. -/
theorem c4_warm_raises_without_side_effects (skip : Bool)
    (isDig : Char → Bool)
    (images_get : String → SamCli.ImagesGetOutcome) (pullResult : Option String)
    (image_name : String) (is_created : Bool) :
    SamCli.run skip isDig images_get pullResult image_name is_created true =
      { result := .error (.valueError
          "The facility to invoke warm container does not exist"),
        pullAttempted := false, createCalled := false, startCalled := false } :=
  rfl

/-- C5: if the image is absent locally (the client reports ImageNotFound) and
its name is not `samcli/lambda`-prefixed, a failing pull makes `run` raise
`DockerImagePullFailedException` with the "could not find ... locally and
failed to pull" message, and the container is neither created nor started. -/
theorem c5_absent_image_failed_pull_raises (skip : Bool)
    (isDig : Char → Bool)
    (images_get : String → SamCli.ImagesGetOutcome) (msg : String)
    (image_name : String) (is_created : Bool)
    (h1 : images_get image_name = .imageNotFound)
    (h2 : SamCli.startsWithSamcliLambda image_name = false) :
    SamCli.run skip isDig images_get (some msg) image_name is_created false =
      { result := .error (.dockerImagePullFailed
          ("Could not find " ++ image_name
            ++ " image locally and failed to pull it from docker.")),
        pullAttempted := true, createCalled := false, startCalled := false } := by
  simp [SamCli.run, SamCli.has_image, h1, h2]

/-- C5 (witness): with an absent `busybox` image and a failing pull, `run`
raises the pull-failure error and does not create or start the container. -/
theorem c5_witness :
    SamCli.run true Char.isDigit (fun _ => .imageNotFound) (some "boom")
        "busybox" false false =
      { result := .error (.dockerImagePullFailed
          ("Could not find " ++ "busybox"
            ++ " image locally and failed to pull it from docker.")),
        pullAttempted := true, createCalled := false, startCalled := false } :=
  c5_absent_image_failed_pull_raises true Char.isDigit
    (fun _ => .imageNotFound) "boom" "busybox" false rfl (by decide)

/-- C6: if the image is present locally, `skip_pull_image` is false and the
name is neither `samcli/lambda`-prefixed nor rapid-tagged, a failing pull is
downgraded: `run` completes without raising, and the container is still
created (when not already created) and started with the local image. -/
theorem c6_local_image_failed_pull_downgraded (isDig : Char → Bool)
    (images_get : String → SamCli.ImagesGetOutcome) (msg : String)
    (image_name : String) (is_created : Bool)
    (h1 : images_get image_name = .found)
    (h2 : SamCli.startsWithSamcliLambda image_name = false)
    (h3 : SamCli.is_rapid_image isDig image_name = false) :
    SamCli.run false isDig images_get (some msg) image_name is_created false =
      { result := .ok (), pullAttempted := true,
        createCalled := !is_created, startCalled := true } := by
  simp [SamCli.run, SamCli.has_image, h1, h2, h3]

/-- C6 (witness): with a locally present `busybox` image and a failing pull,
`run` succeeds, attempts the pull, creates and starts the container. -/
theorem c6_witness :
    SamCli.run false Char.isDigit (fun _ => .found) (some "boom") "busybox"
        false false =
      { result := .ok (), pullAttempted := true,
        createCalled := !false, startCalled := true } :=
  c6_local_image_failed_pull_downgraded Char.isDigit (fun _ => .found)
    "boom" "busybox" false rfl (by decide) (by decide)

/-- C7: for every image name starting with the reserved prefix
`samcli/lambda`, `run` never calls `pull_image`, whatever the
`skip_pull_image` flag, the docker-client oracle (image present, absent, or
erroring), the pull outcome, the container state and the `warm` flag. -/
theorem c7_builtin_image_never_pulled (skip : Bool) (isDig : Char → Bool)
    (images_get : String → SamCli.ImagesGetOutcome) (pullResult : Option String)
    (image_name : String) (is_created warm : Bool)
    (h : SamCli.startsWithSamcliLambda image_name = true) :
    (SamCli.run skip isDig images_get pullResult image_name is_created
        warm).pullAttempted = false := by
  cases warm with
  | true => rfl
  | false =>
      rcases hg : images_get image_name with _ | _ | m <;>
        cases skip <;>
          simp [SamCli.run, SamCli.has_image, hg, h]

/-- C7 (witness): `run` on `samcli/lambda-python3.9` attempts no pull. -/
theorem c7_witness :
    (SamCli.run false Char.isDigit (fun _ => .imageNotFound) none
        "samcli/lambda-python3.9" false false).pullAttempted = false :=
  c7_builtin_image_never_pulled false Char.isDigit (fun _ => .imageNotFound)
    none "samcli/lambda-python3.9" false false (by decide)

/-- C8: if the image is present locally and rapid-tagged, `run` never calls
`pull_image`; likewise if the image is present locally and
`skip_pull_image = true`, no pull attempt occurs. -/
theorem c8_rapid_or_skip_never_pulled (skip : Bool) (isDig : Char → Bool)
    (images_get : String → SamCli.ImagesGetOutcome) (pullResult : Option String)
    (image_name : String) (is_created warm : Bool) :
    (images_get image_name = .found →
      SamCli.is_rapid_image isDig image_name = true →
      (SamCli.run skip isDig images_get pullResult image_name is_created
          warm).pullAttempted = false)
    ∧ (images_get image_name = .found → skip = true →
      (SamCli.run skip isDig images_get pullResult image_name is_created
          warm).pullAttempted = false) := by
  constructor
  · intro h1 h2
    cases warm with
    | true => rfl
    | false =>
        cases skip <;> simp [SamCli.run, SamCli.has_image, h1, h2]
  · intro h1 h2
    cases warm with
    | true => rfl
    | false => subst h2; simp [SamCli.run, SamCli.has_image, h1]

/-- C8 (witness): a locally present `img:rapid-1.0.0` is not pulled, and with
`skip_pull_image = true` a locally present `img` is not pulled. -/
theorem c8_witness :
    (SamCli.run false Char.isDigit (fun _ => .found) none "img:rapid-1.0.0"
        false false).pullAttempted = false
    ∧ (SamCli.run true Char.isDigit (fun _ => .found) none "img" false
        false).pullAttempted = false :=
  ⟨(c8_rapid_or_skip_never_pulled false Char.isDigit (fun _ => .found) none
      "img:rapid-1.0.0" false false).1 rfl (by decide),
   (c8_rapid_or_skip_never_pulled true Char.isDigit (fun _ => .found) none
      "img" false false).2 rfl rfl⟩

/-- C9: `has_image` returns true when the client's metadata query succeeds,
returns false exactly when the client raises `ImageNotFound`, and propagates
any other client exception unchanged (same message). -/
theorem c9_has_image_normalizes_not_found
    (images_get : String → SamCli.ImagesGetOutcome) (image_name : String) :
    (images_get image_name = .found →
      SamCli.has_image images_get image_name = .ok true)
    ∧ (images_get image_name = .imageNotFound →
      SamCli.has_image images_get image_name = .ok false)
    ∧ (SamCli.has_image images_get image_name = .ok false →
      images_get image_name = .imageNotFound)
    ∧ ∀ msg, images_get image_name = .apiError msg →
      SamCli.has_image images_get image_name = .error (.apiError msg) := by
  refine ⟨fun h => by simp [SamCli.has_image, h],
    fun h => by simp [SamCli.has_image, h], ?_,
    fun msg h => by simp [SamCli.has_image, h]⟩
  intro h
  rcases hg : images_get image_name with _ | _ | m
  · rw [SamCli.has_image, hg] at h; exact absurd h (by simp)
  · rfl
  · rw [SamCli.has_image, hg] at h; exact absurd h (by simp)

/-- C9 (witness): `has_image` at a client that finds the image, one that
raises ImageNotFound, and one that raises another exception. -/
theorem c9_witness :
    SamCli.has_image (fun _ => .found) "img" = .ok true
    ∧ SamCli.has_image (fun _ => .imageNotFound) "img" = .ok false
    ∧ SamCli.has_image (fun _ => .apiError "boom") "img"
        = .error (.apiError "boom") :=
  ⟨(c9_has_image_normalizes_not_found (fun _ => .found) "img").1 rfl,
   (c9_has_image_normalizes_not_found (fun _ => .imageNotFound) "img").2.1 rfl,
   (c9_has_image_normalizes_not_found (fun _ => .apiError "boom") "img").2.2.2
     "boom" rfl⟩
